import Mathlib

/-!
Verification of the postgres extraction engine (`postgres/source.py`).

The Python source is shallowly embedded: pure query construction becomes
pure string functions, the mutable `Postgres` object becomes an explicit
`Engine` record threaded through `read`, and the database responses
(introspection results, fetched batches, generated uuid) are supplied by a
`ReadEnv` record.  Side effects observable by the host (connecting,
executed statements, reported checkpoints) are recorded as an `Event`
trace.  Exceptions are modelled with `Except`.
-/

/-- Python `str(x)` for a value that may be `None` (we model scalar values
as strings; `none` is Python's `None`, rendered as the text `None`). -/
def pyStr : Option String → String
  | none => "None"
  | some s => s

/-- Python truthiness for an optional scalar: `None` and the empty string
are falsy. -/
def pyTruthy : Option String → Bool
  | none => false
  | some s => s ≠ ""

/-- Does the second list start with the first one? -/
def leadsWith : List Char → List Char → Bool
  | [], _ => true
  | _ :: _, [] => false
  | a :: p, b :: l => a = b && leadsWith p l

/-- Substring test on character lists. -/
def containsChars (p : List Char) : List Char → Bool
  | [] => leadsWith p []
  | c :: rest => leadsWith p (c :: rest) || containsChars p rest

/-- Python's substring test `needle in hay` on strings. -/
def pyIn (needle hay : String) : Bool :=
  containsChars needle.data hay.data

/-- Python `','.join(xs)`. -/
def joinComma : List String → String
  | [] => ""
  | [x] => x
  | x :: y :: xs => x ++ "," ++ joinComma (y :: xs)

/-- Render a value as a single-quoted SQL literal, `"'{}'".format(x)` in
the source. -/
def pyQuote (v : Option String) : String :=
  "'" ++ pyStr v ++ "'"

/-- One key/column descriptor as returned by the introspection queries
(`SQL_GET_KEYS` / `SQL_GET_COLUMNS` in `source.py`). -/
structure KeyDesc where
  attname : String
  datatype : String := ""
  indnatts : Nat := 0
  indisunique : Bool := false
  indisprimary : Bool := false
  indexrelid : String := ""
deriving DecidableEq, Repr

/-- First occurrence of each element not among those already seen, in
input order. -/
def firstUniquesAux (seen : List String) : List String → List String
  | [] => []
  | x :: xs =>
    if x ∈ seen then firstUniquesAux seen xs
    else x :: firstUniquesAux (x :: seen) xs

/-- First occurrence of each element, in input order (used to enumerate the
distinct owning indexes of a list of key descriptors). -/
def firstUniques (l : List String) : List String :=
  firstUniquesAux [] l

/-- The distinct owning-index ids of the descriptors, in first-seen order. -/
def index_ids (keys : List KeyDesc) : List String :=
  firstUniques (keys.map (·.indexrelid))

/-- Group the descriptors by their owning index, groups in first-seen order. -/
def groups_of (keys : List KeyDesc) : List (List KeyDesc) :=
  (index_ids keys).map (fun gid => keys.filter (fun k => k.indexrelid = gid))

/-- The column count of an index group (each member's `indnatts` is the
column count of the owning index). -/
def group_size : List KeyDesc → Nat
  | [] => 0
  | k :: _ => k.indnatts

/-- Pick the group with the fewest columns; ties broken by first encountered. -/
def pickMinGroup (gs : List (List KeyDesc)) : Option (List KeyDesc) :=
  gs.foldl
    (fun acc g =>
      match acc with
      | none => some g
      | some b => if group_size g < group_size b then some g else acc)
    none

/-- Modelled from the spec: the `keystrategy` module imported by
`source.py` is not part of the sources.  Spec rule 1: all descriptors with
`isPrimary = true`. -/
def strategy_primary (keys : List KeyDesc) : List KeyDesc :=
  keys.filter (·.indisprimary)

/-- Modelled from the spec: rule 2, smallest all-unique index group,
fewest columns, ties broken by first encountered. -/
def strategy_smallest_unique (keys : List KeyDesc) : List KeyDesc :=
  (pickMinGroup ((groups_of keys).filter (fun g => g.all (·.indisunique)))).getD []

/-- Modelled from the spec: rule 3, smallest index group without the
uniqueness filter. -/
def strategy_smallest_index (keys : List KeyDesc) : List KeyDesc :=
  (pickMinGroup (groups_of keys)).getD []

/-- Modelled from the spec: the ordered strategy list of the missing
`keystrategy` module. -/
def KEY_STRATEGY : List (List KeyDesc → List KeyDesc) :=
  [strategy_primary, strategy_smallest_unique, strategy_smallest_index]

/-- Function `key_strategy` from `source.py`: the first strategy returning a
non-empty result wins, otherwise the input is returned unchanged. -/
def key_strategy (keys : List KeyDesc) : List KeyDesc :=
  match (KEY_STRATEGY.map (fun f => f keys)).find? (fun r => !r.isEmpty) with
  | some r => r
  | none => keys

/-- The resume-state values carried by a checkpoint: ordering-key column
name paired with the last seen value (`None` possible), in key order. -/
abbrev SavedVals := List (String × Option String)

/-- The ORDER BY clause of `get_query` (`source.py` lines 283-288): key
column names in order, the incremental column appended when set and not
already among them; empty when there are no keys. -/
def order_by_clause (inckey : String) (keys : List KeyDesc) : String :=
  if keys = [] then ""
  else
    let names := keys.map (·.attname)
    let names := if inckey ≠ "" ∧ inckey ∉ names then names ++ [inckey] else names
    " ORDER BY " ++ joinComma names

/-- The resume predicate of `get_query` (`source.py` lines 290-300):
`col >= 'val'` for a single-column state, tuple comparison with
parentheses otherwise; empty for a missing or empty state. -/
def resume_where : Option SavedVals → String
  | none => ""
  | some st =>
    if st = [] then ""
    else
      let ks := joinComma (st.map (·.1))
      let vs := joinComma (st.map (fun p => pyQuote p.2))
      if st.length > 1 then "(" ++ ks ++ ") >= (" ++ vs ++ ")"
      else ks ++ " >= " ++ vs

/-- The incremental predicate step of `get_query` (`source.py` lines
302-313): given the WHERE text built so far, append
`inckey >= 'incval'` (wrapped with the upper bound when one is truthy)
unless `inckey` already occurs as a substring of that text. -/
def inc_where (inckey incval : String) (max_value : Option String) (w : String) : String :=
  if inckey ≠ "" ∧ incval ≠ "" ∧ ¬ pyIn inckey w then
    (if w ≠ "" then w ++ " AND " else w) ++
      (if pyTruthy max_value then
        "(" ++ (inckey ++ " >= '" ++ incval ++ "'") ++ " AND " ++ inckey ++ " <= " ++
          pyStr max_value ++ ")"
      else inckey ++ " >= '" ++ incval ++ "'")
  else w

/-- Function `get_query` from `source.py` (lines 278-320): build the SELECT text
from schema, table, incremental column and bound, ordering keys, upper
bound and resume state. -/
def get_query (schema table inckey incval : String) (keys : List KeyDesc)
    (max_value : Option String) (state : Option SavedVals := none) : String :=
  let offset := ""
  let orderby := order_by_clause inckey keys
  let w := inc_where inckey incval max_value (resume_where state)
  let whereC := if w ≠ "" then " WHERE " ++ w else ""
  "SELECT * FROM \"" ++ schema ++ "\".\"" ++ table ++ "\"" ++ whereC ++ orderby ++ offset

/-- Modelled from the spec's words (§4.2): the resume predicate is a
tuple-comparison of the resume-state column names against their
single-quoted values under the operator `>=`, the parentheses being
omitted for a single-column state. -/
def spec_resume_pred (st : SavedVals) : String :=
  if st.length = 1 then
    joinComma (st.map (·.1)) ++ " >= " ++ joinComma (st.map (fun p => pyQuote p.2))
  else
    "(" ++ joinComma (st.map (·.1)) ++ ") >= (" ++ joinComma (st.map (fun p => pyQuote p.2)) ++ ")"

/-- Modelled from the spec's words (§4.2): the incremental predicate,
wrapped with the upper bound (interpolated without quotes) when one is
known. -/
def spec_inc_clause (inckey incval : String) (ub : Option String) : String :=
  if pyTruthy ub then
    "(" ++ (inckey ++ " >= '" ++ incval ++ "'") ++ " AND " ++ inckey ++ " <= " ++ pyStr ub ++ ")"
  else inckey ++ " >= '" ++ incval ++ "'"

/-- Modelled from the spec's words (§4.2): the ORDER BY column list is the
ordering-key names with the incremental column appended exactly when it is
set and not already among them. -/
def spec_order_cols (inckey : String) (names : List String) : List String :=
  if inckey ≠ "" ∧ inckey ∉ names then names ++ [inckey] else names

/-- A row as returned by the dict cursor: an association list from column
name to value, unique keys, insertion order preserved. -/
abbrev Row := List (String × String)

/-- Python `row.get(k)`. -/
def rowGet : Row → String → Option String
  | [], _ => none
  | (a, b) :: rest, k => if a = k then some b else rowGet rest k

/-- Python `dict` assignment `row[k] = v`: replace the value of an existing
key in place, or append a new key. -/
def rowSet : Row → String → String → Row
  | [], k, v => [(k, v)]
  | (a, b) :: rest, k, v =>
    if a = k then (k, v) :: rest else (a, b) :: rowSet rest k v

/-- Tagging `dict(r, **internals)` from `Postgres.read`: tag a row with the table
name, the schema name and the batch state id, overwriting colliding keys. -/
def addInternals (table schema stateId : String) (r : Row) : Row :=
  rowSet (rowSet (rowSet r "__tablename" table) "__schemaname" schema) "__state" stateId

/-- The serializable resume descriptor built by `Postgres._report_state`:
`last_index` and the ordering-key values of the last row. -/
structure SavedState where
  last_index : Nat
  last_value : SavedVals
deriving DecidableEq, Repr

/-- The mutable fields of the `Postgres` object that `read`, `execute`,
`close` and `reset` touch. -/
structure Engine where
  tables : List String
  index : Nat := 0
  conn : Bool := false
  cursor : Bool := false
  state_id : Option String := none
  loaded : Nat := 0
  saved_state : Option SavedState := none
  current_keys : Option (List KeyDesc) := none
  inckey : String := ""
  incval : String := ""
  batch_size : Nat := 5000
deriving DecidableEq, Repr

/-- Host-observable effects of one `read` call, in order: opening a
connection, executing a statement, reporting a checkpoint via
`self.state`. -/
inductive Event where
  | connect
  | exec (q : String)
  | report (stateId : String) (st : SavedState)
deriving DecidableEq, Repr

/-- The database responses consumed by one `read` call: the two
introspection results, the incremental column's max value, the fetched
batch, and the uuid generated for this fetch. -/
structure ReadEnv where
  keysMeta : List KeyDesc
  colsMeta : List KeyDesc
  maxValue : Option String := none
  batch : List Row := []
  stateId : String := ""
deriving DecidableEq, Repr

/-- Query `SQL_GET_KEYS.format(table)` from `source.py`. -/
def sql_get_keys_q (table : String) : String :=
  "\n            SELECT a.attname,\n                   format_type(a.atttypid, a.atttypmod) as datatype,\n                   i.indnatts,\n                   i.indisunique,\n                   i.indisprimary\n            FROM   pg_index i\n                   JOIN   pg_attribute a ON a.attrelid = i.indrelid\n                   AND a.attnum = ANY(i.indkey)\n            WHERE  i.indrelid = '" ++ table ++ "'::regclass\n            "

/-- Query `SQL_GET_COLUMNS.format(table)` from `source.py`. -/
def sql_get_columns_q (table : String) : String :=
  "\n            SELECT a.attname,\n                    a.attrelid::regclass,\n                   format_type(a.atttypid, a.atttypmod) AS data_type\n            FROM pg_attribute as a\n            WHERE a.attrelid = '" ++ table ++ "'::regclass\n            and a.attnum > 0;\n            "

/-- The query executed by `Postgres.get_max_value`. -/
def max_value_q (column schema table : String) : String :=
  "SELECT MAX(\"" ++ column ++ "\") FROM \"" ++ schema ++ "\".\"" ++ table ++ "\""

/-- Split a list at the first occurrence of a separator (Python
`split(sep, 1)`; `none` when the separator is absent, in which case the
source's tuple unpacking raises). -/
def splitFirstList (c : Char) : List Char → Option (List Char × List Char)
  | [] => none
  | x :: xs =>
    if x = c then some ([], xs)
    else (splitFirstList c xs).map (fun p => (x :: p.1, p.2))

/-- The ordering key `read` resolves for the current table (`source.py`
lines 103-116): the cached keys if truthy, else the key introspection
result, else the first introspected column; `key_strategy` applied last. -/
def resolve_keys (env : ReadEnv) (s : Engine) : List KeyDesc :=
  let ck0 := s.current_keys.getD []
  let ck1 := if ck0 = [] then env.keysMeta else ck0
  let ck2 := if ck1 = [] then env.colsMeta.take 1 else ck1
  key_strategy ck2

/-- Method `Postgres.get_max_value`: `None` when no incremental column is set,
otherwise the database's answer. -/
def resolved_max (env : ReadEnv) (s : Engine) : Option String :=
  if s.inckey = "" then none else env.maxValue

/-- The text `read` passes to `DECLARE cur CURSOR FOR ...` when it opens a
cursor: `get_query` applied to the resolved keys, max value and the saved
resume state. -/
def declared_query (env : ReadEnv) (schema table : String) (s : Engine) : String :=
  get_query schema table s.inckey s.incval (resolve_keys env s) (resolved_max env s)
    (s.saved_state.map (·.last_value))

/-- Lines 99-122 of `source.py`: connect, resolve the ordering key (with
its introspection statements), query the incremental column's max value,
and declare the server-side cursor. -/
def open_cursor (env : ReadEnv) (schema table : String) (s : Engine) : Engine × List Event :=
  let ck0 := s.current_keys.getD []
  let ev1 := if ck0 = [] then [Event.exec (sql_get_keys_q table)] else []
  let ck1 := if ck0 = [] then env.keysMeta else ck0
  let ev2 := if ck1 = [] then [Event.exec (sql_get_columns_q table)] else []
  let ev3 := if s.inckey = "" then [] else [Event.exec (max_value_q s.inckey schema table)]
  let q := declared_query env schema table s
  ({ s with conn := true, cursor := true, current_keys := some (resolve_keys env s) },
   [Event.connect] ++ ev1 ++ ev2 ++ ev3 ++ [Event.exec ("DECLARE cur CURSOR FOR " ++ q)])

/-- The ordering key in effect during a `read` call: the cached one when a
cursor is already open, the freshly resolved one otherwise. -/
def keys_in_use (env : ReadEnv) (s : Engine) : List KeyDesc :=
  if s.cursor then s.current_keys.getD [] else resolve_keys env s

/-- Lines 128-152 of `source.py`, after the fetch: record the state id and
row count; on an empty batch close everything and advance to the next
table; otherwise build and report the checkpoint from the last row. -/
def after_fetch (stateId : String) (tagged : List Row) (s : Engine) : Engine × List Event :=
  let s1 := { s with state_id := some stateId, loaded := s.loaded + tagged.length }
  if tagged = [] then
    ({ s1 with loaded := 0, conn := false, cursor := false, index := s1.index + 1,
               current_keys := none, saved_state := none }, [])
  else
    let last_row := tagged.getLast?.getD []
    let names := (s1.current_keys.getD []).map (·.attname)
    let lv := names.map (fun k => (k, rowGet last_row k))
    let st : SavedState := { last_index := s1.index, last_value := lv }
    ({ s1 with saved_state := some st }, [Event.report stateId st])

/-- Method `Postgres.read`: one batch of the scan.  `.ok (none, _, _)` is the
Python `return None` ("no more data"); `.error` models the `ValueError`
raised when the configured table name has no schema separator. -/
def Postgres.read (env : ReadEnv) (batchSizeArg : Option Nat) (s : Engine) :
    Except String (Option (List Row) × Engine × List Event) :=
  let batch_size :=
    match batchSizeArg with
    | some b => if b = 0 then s.batch_size else b
    | none => s.batch_size
  if s.tables.length ≤ s.index then .ok (none, s, [])
  else
    match splitFirstList '.' (s.tables.getD s.index "").data with
    | none => .error "ValueError"
    | some (sc, tb) =>
      let schema := String.mk sc
      let table := String.mk tb
      let s1 := if s.cursor then s else (open_cursor env schema table s).1
      let ev1 := if s.cursor then ([] : List Event) else (open_cursor env schema table s).2
      let tagged := env.batch.map (addInternals table schema env.stateId)
      .ok (some tagged, (after_fetch env.stateId tagged s1).1,
           ev1 ++ [Event.exec ("FETCH FORWARD " ++ toString batch_size ++ " FROM cur")] ++
             (after_fetch env.stateId tagged s1).2)

/-- Method `Postgres.reset`: clear the rows-loaded counter and the connection and
cursor handles. -/
def Postgres.reset (s : Engine) : Engine :=
  { s with loaded := 0, conn := false, cursor := false }

/-- Method `Postgres.execute`, its effect on the engine: success leaves the fields
alone; a database error runs `reset` before the exception propagates (the
`.error` payload is the engine state at the moment of the raise). -/
def Postgres.execute (s : Engine) (ok : Bool) : Except Engine Engine :=
  if ok then .ok s else .error (Postgres.reset s)

/-- Drive `read` over a list of per-call database responses, stopping at
the first exception. -/
def runReads : List ReadEnv → Engine → List (Except String (Option (List Row))) × Engine
  | [], s => ([], s)
  | e :: es, s =>
    match Postgres.read e none s with
    | .error m => ([.error m], s)
    | .ok (r, s', _) =>
      let rest := runReads es s'
      (.ok r :: rest.1, rest.2)

/-- The batch part of a `read` outcome. -/
def readResult (r : Except String (Option (List Row) × Engine × List Event)) :
    Except String (Option (List Row)) :=
  match r with
  | .ok p => .ok p.1
  | .error e => .error e

/-- The engine part of a `read` outcome (the given default on an
exception). -/
def readEngine (r : Except String (Option (List Row) × Engine × List Event))
    (d : Engine) : Engine :=
  match r with
  | .ok (_, s, _) => s
  | .error _ => d

/-- The event trace of a `read` outcome. -/
def readTrace (r : Except String (Option (List Row) × Engine × List Event)) : List Event :=
  match r with
  | .ok (_, _, tr) => tr
  | .error _ => []

/-- The rows of a `read` outcome (empty on "no more data" or exception). -/
def resultRows (r : Except String (Option (List Row) × Engine × List Event)) : List Row :=
  match r with
  | .ok (some l, _, _) => l
  | _ => []

/-- The checkpoint-report events of a trace. -/
def reportsOf (tr : List Event) : List Event :=
  tr.filter (fun e => match e with | .report _ _ => true | _ => false)

/-- Classify a `read` outcome: 0 no more data, 1 empty batch, 2 non-empty
batch, 3 exception. -/
def batchShape : Except String (Option (List Row)) → Nat
  | .ok none => 0
  | .ok (some []) => 1
  | .ok (some (_ :: _)) => 2
  | .error _ => 3

/-- Split a list at the last occurrence of a separator (Python
`rsplit(sep, 1)`). -/
def rsplitList (c : Char) : List Char → Option (List Char × List Char)
  | [] => none
  | x :: xs =>
    match rsplitList c xs with
    | some p => some (x :: p.1, p.2)
    | none => if x = c then some ([], xs) else none

/-- Python `s.rsplit(c, 1)` on strings. -/
def rsplit1 (s : String) (c : Char) : Option (String × String) :=
  (rsplitList c s.data).map (fun p => (String.mk p.1, String.mk p.2))

/-- Accumulate the value of a decimal digit string, `none` on a
non-digit. -/
def pyIntAux : List Char → Nat → Option Nat
  | [], acc => some acc
  | c :: cs, acc =>
    if '0' ≤ c ∧ c ≤ '9' then pyIntAux cs (acc * 10 + (c.toNat - 48)) else none

/-- Python `int(s)` restricted to non-negative decimal digit strings (the
only values a port field can meaningfully hold); `none` models the
`ValueError` raised otherwise. -/
def pyInt? (s : String) : Option Nat :=
  if s.data = [] then none else pyIntAux s.data 0

/-- The address parsing of `connect` (`source.py` lines 251-255): database
name after the last slash, port after the last colon of the host part when
one is present, 5432 otherwise.  `none` models the exceptions raised on a
slash-free address or a non-numeric port. -/
def parse_addr (addr : String) : Option (String × Nat × String) :=
  match rsplit1 addr '/' with
  | none => none
  | some (host0, dbname) =>
    if host0.data.contains ':' then
      match rsplit1 host0 ':' with
      | none => none
      | some (host, portStr) =>
        match pyInt? portStr with
        | none => none
        | some port => some (host, port, dbname)
    else some (host0, 5432, dbname)

/-- The error `connect` lets escape when the connection attempt fails. -/
inductive ConnectError where
  | panoply (msg : String) (retryable : Bool)
  | operational (msg : String)
deriving DecidableEq, Repr

/-- Lines 267-273 of `source.py`: an operational error whose message
mentions `authentication failed` becomes a non-retryable
`PanoplyException`; any other operational error is re-raised unchanged. -/
def classify_connect_error (user msg : String) : ConnectError :=
  if pyIn "authentication failed" msg then
    .panoply ("Login failed for user: " ++ user) false
  else .operational msg


theorem str_data_append (s t : String) : (s ++ t).data = s.data ++ t.data := by
  cases s; cases t; rfl

theorem str_ext (s t : String) (h : s.data = t.data) : s = t := by
  cases s; cases t; cases h; rfl

theorem str_empty_iff (s : String) : s = "" ↔ s.data = [] := by
  constructor
  · intro h; rw [h]
  · intro h
    apply str_ext
    rw [h]

theorem str_append_ne_right (a b : String) (hb : b ≠ "") : a ++ b ≠ "" := by
  intro h
  rw [str_empty_iff, str_data_append] at h
  exact hb ((str_empty_iff _).mpr (List.append_eq_nil.mp h).2)

theorem str_append_ne_left (a b : String) (ha : a ≠ "") : a ++ b ≠ "" := by
  intro h
  rw [str_empty_iff, str_data_append] at h
  exact ha ((str_empty_iff _).mpr (List.append_eq_nil.mp h).1)

theorem str_append_empty (s : String) : s ++ "" = s := by
  apply str_ext
  rw [str_data_append]
  have h : ("" : String).data = [] := rfl
  rw [h, List.append_nil]

theorem leadsWith_refl (l : List Char) : leadsWith l l = true := by
  induction l with
  | nil => rfl
  | cons a t ih => simp [leadsWith, ih]

theorem leadsWith_append (p r : List Char) : leadsWith p (p ++ r) = true := by
  induction p with
  | nil => rfl
  | cons a t ih => simp [leadsWith, ih]

theorem resume_where_spec (st : SavedVals) (h : st ≠ []) :
    resume_where (some st) = spec_resume_pred st := by
  match st with
  | [] => exact absurd rfl h
  | [p] => simp [resume_where, spec_resume_pred]
  | p :: q :: tl => simp [resume_where, spec_resume_pred, Nat.succ_lt_succ]

theorem spec_resume_pred_ne_empty (st : SavedVals) : spec_resume_pred st ≠ "" := by
  unfold spec_resume_pred
  split
  · exact str_append_ne_left _ _ (str_append_ne_right _ _ (by decide))
  · exact str_append_ne_right _ _ (by decide)

theorem spec_inc_clause_ne_empty (inckey incval : String) (ub : Option String) :
    spec_inc_clause inckey incval ub ≠ "" := by
  unfold spec_inc_clause
  split
  · exact str_append_ne_right _ _ (by decide)
  · exact str_append_ne_right _ _ (by decide)

theorem inc_where_emit (inckey incval : String) (mv : Option String) (w : String)
    (h1 : inckey ≠ "") (h2 : incval ≠ "") (h3 : pyIn inckey w = false) :
    inc_where inckey incval mv w =
      (if w ≠ "" then w ++ " AND " else w) ++ spec_inc_clause inckey incval mv := by
  unfold inc_where spec_inc_clause
  rw [if_pos ⟨h1, h2, by simp [h3]⟩]

theorem inc_where_skip (inckey incval : String) (mv : Option String) (w : String)
    (h : pyIn inckey w = true) :
    inc_where inckey incval mv w = w := by
  unfold inc_where
  rw [if_neg (fun hc => hc.2.2 h)]

theorem inc_where_no_inckey (incval : String) (mv : Option String) (w : String) :
    inc_where "" incval mv w = w := by
  unfold inc_where
  rw [if_neg (fun hc => hc.1 rfl)]

theorem inc_where_ne_empty (inckey incval : String) (mv : Option String) (w : String)
    (h : w ≠ "") : inc_where inckey incval mv w ≠ "" := by
  unfold inc_where
  by_cases hg : inckey ≠ "" ∧ incval ≠ "" ∧ ¬ pyIn inckey w
  · rw [if_pos hg, if_pos h]
    exact str_append_ne_left _ _ (str_append_ne_right _ _ (by decide))
  · rw [if_neg hg]; exact h

theorem get_query_eq (schema table inckey incval : String) (keys : List KeyDesc)
    (mv : Option String) (st : Option SavedVals) :
    get_query schema table inckey incval keys mv st =
      "SELECT * FROM \"" ++ schema ++ "\".\"" ++ table ++ "\"" ++
        (if inc_where inckey incval mv (resume_where st) ≠ "" then
          " WHERE " ++ inc_where inckey incval mv (resume_where st)
        else "") ++
        order_by_clause inckey keys := by
  simp only [get_query]
  rw [str_append_empty]

/-- C1: for every call to `get_query` with a non-empty resume state, the
WHERE clause starts with the resume predicate comparing the tuple of
resume-state column names (in stored order) against their single-quoted
values under `>=`, parentheses omitted exactly for a one-column state; and
on the concrete example of the spec the returned text is exactly the
expected query. -/
theorem c1_resume_predicate :
    (∀ (schema table inckey incval : String) (keys : List KeyDesc)
        (mv : Option String) (st : SavedVals), st ≠ [] →
      resume_where (some st) = spec_resume_pred st ∧
      get_query schema table inckey incval keys mv (some st) =
        "SELECT * FROM \"" ++ schema ++ "\".\"" ++ table ++ "\"" ++
          (" WHERE " ++ inc_where inckey incval mv (spec_resume_pred st)) ++
          order_by_clause inckey keys ∧
      leadsWith (spec_resume_pred st).data
        (inc_where inckey incval mv (spec_resume_pred st)).data = true) ∧
    get_query "public" "foo" "" "" [{ attname := "pk1" }, { attname := "pk2" }] none
        (some [("pk1", some "1"), ("pk2", some "1994-09-16")]) =
      "SELECT * FROM \"public\".\"foo\" WHERE (pk1,pk2) >= ('1','1994-09-16') ORDER BY pk1,pk2" := by
  constructor
  · intro schema table inckey incval keys mv st h
    refine ⟨resume_where_spec st h, ?_, ?_⟩
    · rw [get_query_eq, resume_where_spec st h,
        if_pos (inc_where_ne_empty inckey incval mv _ (spec_resume_pred_ne_empty st))]
    · unfold inc_where
      by_cases hg : inckey ≠ "" ∧ incval ≠ "" ∧ ¬ pyIn inckey (spec_resume_pred st)
      · rw [if_pos hg, if_pos (spec_resume_pred_ne_empty st), str_data_append,
          str_data_append, List.append_assoc]
        exact leadsWith_append _ _
      · rw [if_neg hg]
        exact leadsWith_refl _
  · decide

theorem c1_resume_predicate_witness :
    resume_where (some [("pk1", some "1"), ("pk2", some "1994-09-16")]) =
      spec_resume_pred [("pk1", some "1"), ("pk2", some "1994-09-16")] ∧
    get_query "public" "foo" "" "" [{ attname := "pk1" }, { attname := "pk2" }] none
        (some [("pk1", some "1"), ("pk2", some "1994-09-16")]) =
      "SELECT * FROM \"" ++ "public" ++ "\".\"" ++ "foo" ++ "\"" ++
        (" WHERE " ++
          inc_where "" "" none (spec_resume_pred [("pk1", some "1"), ("pk2", some "1994-09-16")])) ++
        order_by_clause "" [{ attname := "pk1" }, { attname := "pk2" }] ∧
    leadsWith (spec_resume_pred [("pk1", some "1"), ("pk2", some "1994-09-16")]).data
      (inc_where "" "" none (spec_resume_pred [("pk1", some "1"), ("pk2", some "1994-09-16")])).data
      = true :=
  c1_resume_predicate.1 "public" "foo" "" "" [{ attname := "pk1" }, { attname := "pk2" }]
    none [("pk1", some "1"), ("pk2", some "1994-09-16")] (by decide)

/-- C5 counterexample: with incremental column `k`, lower bound `v`,
ordering key `pk1` and resume state binding only `pk1`, the incremental
column is not referenced by the resume predicate, yet the WHERE clause
contains no `k >= 'v'` predicate, because the source merely tests that the
text `k` is no substring of the resume predicate, and `k` occurs inside
`pk1`. -/
theorem c5_counterexample :
    ("k" ∉ ([("pk1", some "1")] : SavedVals).map Prod.fst) ∧
    get_query "public" "foo" "k" "v" [{ attname := "pk1" }] none (some [("pk1", some "1")]) =
      "SELECT * FROM \"public\".\"foo\" WHERE pk1 >= '1' ORDER BY pk1,k" ∧
    pyIn "k >= 'v'"
      (get_query "public" "foo" "k" "v" [{ attname := "pk1" }] none
        (some [("pk1", some "1")])) = false := by
  decide

/-- C5 (amended): when the incremental column and its lower bound are set
and the incremental column does not occur as a substring of the text of
the resume predicate, the WHERE clause contains `inckey >= 'incval'`
(wrapped together with the unquoted upper bound when one is truthy), ANDed
after the resume predicate when one is present; when the incremental
column does occur as a substring of the WHERE text built so far, no
incremental predicate is emitted. -/
theorem c5_incremental_amended :
    (∀ (schema table inckey incval : String) (keys : List KeyDesc) (mv : Option String)
        (st : Option SavedVals),
      inckey ≠ "" → incval ≠ "" → pyIn inckey (resume_where st) = false →
      inc_where inckey incval mv (resume_where st) =
        (if resume_where st ≠ "" then resume_where st ++ " AND " else resume_where st) ++
          spec_inc_clause inckey incval mv ∧
      get_query schema table inckey incval keys mv st =
        "SELECT * FROM \"" ++ schema ++ "\".\"" ++ table ++ "\"" ++
          (" WHERE " ++
            ((if resume_where st ≠ "" then resume_where st ++ " AND " else resume_where st) ++
              spec_inc_clause inckey incval mv)) ++ order_by_clause inckey keys) ∧
    (∀ (inckey incval : String) (mv : Option String) (w : String),
      pyIn inckey w = true → inc_where inckey incval mv w = w) := by
  constructor
  · intro schema table inckey incval keys mv st h1 h2 h3
    have he := inc_where_emit inckey incval mv (resume_where st) h1 h2 h3
    refine ⟨he, ?_⟩
    have hne : (if resume_where st ≠ "" then resume_where st ++ " AND " else resume_where st) ++
        spec_inc_clause inckey incval mv ≠ "" :=
      str_append_ne_right _ _ (spec_inc_clause_ne_empty inckey incval mv)
    rw [get_query_eq, he, if_pos hne]
  · intro inckey incval mv w h
    exact inc_where_skip inckey incval mv w h

theorem c5_incremental_amended_witness :
    (inc_where "id" "2" none (resume_where (some [("pk1", some "1")])) =
      (if resume_where (some [("pk1", some "1")]) ≠ "" then
        resume_where (some [("pk1", some "1")]) ++ " AND "
      else resume_where (some [("pk1", some "1")])) ++ spec_inc_clause "id" "2" none ∧
    get_query "public" "test" "id" "2" [{ attname := "pk1" }] none
        (some [("pk1", some "1")]) =
      "SELECT * FROM \"" ++ "public" ++ "\".\"" ++ "test" ++ "\"" ++
        (" WHERE " ++
          ((if resume_where (some [("pk1", some "1")]) ≠ "" then
             resume_where (some [("pk1", some "1")]) ++ " AND "
           else resume_where (some [("pk1", some "1")])) ++ spec_inc_clause "id" "2" none)) ++
        order_by_clause "id" [{ attname := "pk1" }]) ∧
    inc_where "k" "v" none "pk1 >= '1'" = "pk1 >= '1'" :=
  ⟨c5_incremental_amended.1 "public" "test" "id" "2" [{ attname := "pk1" }] none
      (some [("pk1", some "1")]) (by decide) (by decide) (by decide),
   c5_incremental_amended.2 "k" "v" none "pk1 >= '1'" (by decide)⟩

/-- C6: with a non-empty key list the ORDER BY clause lists the
ordering-key column names in order with the incremental column appended
exactly when it is set and not already among them (and never duplicated,
given distinct key names); with no ordering key and no incremental column
there is no ORDER BY clause; and `get_query` is deterministic. -/
theorem c6_order_by :
    (∀ (inckey : String) (keys : List KeyDesc), keys ≠ [] →
      order_by_clause inckey keys =
        " ORDER BY " ++ joinComma (spec_order_cols inckey (keys.map (·.attname)))) ∧
    (∀ (inckey : String) (names : List String), names.Nodup →
      (spec_order_cols inckey names).Nodup) ∧
    (∀ (schema table incval : String) (mv : Option String) (st : Option SavedVals),
      get_query schema table "" incval [] mv st =
        "SELECT * FROM \"" ++ schema ++ "\".\"" ++ table ++ "\"" ++
          (if resume_where st ≠ "" then " WHERE " ++ resume_where st else "")) ∧
    (∀ (schema table inckey incval : String) (keys : List KeyDesc) (mv : Option String)
        (st : Option SavedVals),
      get_query schema table inckey incval keys mv st =
        get_query schema table inckey incval keys mv st) := by
  refine ⟨?_, ?_, ?_, fun _ _ _ _ _ _ _ => rfl⟩
  · intro inckey keys h
    simp only [order_by_clause, spec_order_cols, if_neg h]
  · intro inckey names h
    unfold spec_order_cols
    split
    · next hc =>
      simp only [List.nodup_append, List.nodup_singleton, true_and]
      exact ⟨h, by simpa using hc.2⟩
    · exact h
  · intro schema table incval mv st
    rw [get_query_eq, inc_where_no_inckey]
    rw [show order_by_clause "" ([] : List KeyDesc) = "" from rfl, str_append_empty]

theorem c6_order_by_witness :
    (order_by_clause "pk3" [{ attname := "pk1" }, { attname := "pk2" }] =
      " ORDER BY " ++
        joinComma (spec_order_cols "pk3"
          (([{ attname := "pk1" }, { attname := "pk2" }] : List KeyDesc).map (·.attname)))) ∧
    (spec_order_cols "pk3" ["pk1", "pk2"]).Nodup ∧
    get_query "public" "test" "" "x" [] none none =
      "SELECT * FROM \"" ++ "public" ++ "\".\"" ++ "test" ++ "\"" ++
        (if resume_where none ≠ "" then " WHERE " ++ resume_where none else "") :=
  ⟨c6_order_by.1 "pk3" [{ attname := "pk1" }, { attname := "pk2" }] (by decide),
   c6_order_by.2.1 "pk3" ["pk1", "pk2"] (by decide),
   c6_order_by.2.2.1 "public" "test" "x" none none⟩

theorem rowGet_rowSet_self (r : Row) (k v : String) :
    rowGet (rowSet r k v) k = some v := by
  induction r with
  | nil => simp [rowSet, rowGet]
  | cons p rest ih =>
    obtain ⟨a, b⟩ := p
    by_cases h : a = k
    · simp [rowSet, h, rowGet]
    · simp [rowSet, h, rowGet, ih]

theorem rowGet_rowSet_other (r : Row) (k k' v : String) (h : k' ≠ k) :
    rowGet (rowSet r k v) k' = rowGet r k' := by
  induction r with
  | nil => simp [rowSet, rowGet, Ne.symm h]
  | cons p rest ih =>
    obtain ⟨a, b⟩ := p
    by_cases ha : a = k
    · subst ha
      simp [rowSet, rowGet, Ne.symm h]
    · by_cases ha' : a = k'
      · simp [rowSet, ha, rowGet, ha', h]
      · simp [rowSet, ha, rowGet, ha', ih]

theorem addInternals_state (t s id : String) (r : Row) :
    rowGet (addInternals t s id r) "__state" = some id := by
  unfold addInternals
  exact rowGet_rowSet_self _ _ _

theorem addInternals_schema (t s id : String) (r : Row) :
    rowGet (addInternals t s id r) "__schemaname" = some s := by
  unfold addInternals
  rw [rowGet_rowSet_other _ _ _ _ (by decide)]
  exact rowGet_rowSet_self _ _ _

theorem addInternals_table (t s id : String) (r : Row) :
    rowGet (addInternals t s id r) "__tablename" = some t := by
  unfold addInternals
  rw [rowGet_rowSet_other _ _ _ _ (by decide), rowGet_rowSet_other _ _ _ _ (by decide)]
  exact rowGet_rowSet_self _ _ _

/-- Ordering-key metadata for one scenario table: a single primary-key
column. -/
def scenarioKeys (c : String) : List KeyDesc :=
  [{ attname := c, indisprimary := true }]

/-- One scenario fetch: primary-key introspection succeeds, the cursor
yields the given batch, and the uuid generator returns `sid`. -/
def scenarioEnv (c sid : String) (batch : List Row) : ReadEnv :=
  { keysMeta := scenarioKeys c, colsMeta := [], maxValue := none,
    batch := batch, stateId := sid }

/-- The three mock records of the repository's test suite. -/
def mockRecs : List Row :=
  [[("id", "1"), ("col1", "foo1")],
   [("id", "2"), ("col1", "foo2")],
   [("id", "3"), ("col1", "foo3")]]

/-- An engine over three tables with no saved state. -/
def scenarioEngine : Engine :=
  { tables := ["public.table1", "public.table2", "public.table3"] }

/-- Database responses for six consecutive reads: each table yields one
non-empty batch and then one empty batch. -/
def scenarioEnvs : List ReadEnv :=
  [scenarioEnv "col1" "s1" mockRecs, scenarioEnv "col1" "s2" [],
   scenarioEnv "col2" "s3" mockRecs, scenarioEnv "col2" "s4" [],
   scenarioEnv "col3" "s5" mockRecs, scenarioEnv "col3" "s6" []]

deriving instance DecidableEq for Except

/-- C2: over three tables with no saved state, each yielding one non-empty
and then one empty batch, six reads return batch, empty, batch, empty,
batch, empty and the seventh returns the distinguished "no more data"
result; in general, `read` returns "no more data" exactly when the table
index is at least the table count at entry, and an empty fetched batch
closes the cursor and connection, advances the table index, and clears the
resume state and ordering key without signalling overall completion. -/
theorem c2_read_progression :
    ((runReads scenarioEnvs scenarioEngine).1.map batchShape = [2, 1, 2, 1, 2, 1]) ∧
    (Postgres.read (scenarioEnv "col1" "s7" []) none (runReads scenarioEnvs scenarioEngine).2 =
      .ok (none, (runReads scenarioEnvs scenarioEngine).2, [])) ∧
    (∀ (env : ReadEnv) (bs : Option Nat) (s : Engine),
      readResult (Postgres.read env bs s) = .ok none ↔ s.tables.length ≤ s.index) ∧
    (∀ (env : ReadEnv) (bs : Option Nat) (s : Engine) (sc tb : List Char),
      s.index < s.tables.length →
      splitFirstList '.' (s.tables.getD s.index "").data = some (sc, tb) →
      env.batch = [] →
      readResult (Postgres.read env bs s) = .ok (some []) ∧
      (readEngine (Postgres.read env bs s) s).cursor = false ∧
      (readEngine (Postgres.read env bs s) s).conn = false ∧
      (readEngine (Postgres.read env bs s) s).index = s.index + 1 ∧
      (readEngine (Postgres.read env bs s) s).saved_state = none ∧
      (readEngine (Postgres.read env bs s) s).current_keys = none) := by
  refine ⟨by decide, by decide, ?_, ?_⟩
  · intro env bs s
    constructor
    · intro h
      by_cases hle : s.tables.length ≤ s.index
      · exact hle
      · exfalso
        simp only [Postgres.read] at h
        rw [if_neg hle] at h
        cases hm : splitFirstList '.' (s.tables.getD s.index "").data with
        | none => rw [hm] at h; simp [readResult] at h
        | some p =>
          obtain ⟨a, b⟩ := p
          rw [hm] at h
          simp [readResult] at h
    · intro h
      simp only [Postgres.read]
      rw [if_pos h]
      rfl
  · intro env bs s sc tb hlt hsplit hb
    have hne := Nat.not_le.mpr hlt
    by_cases hc : s.cursor <;>
      refine ⟨?_, ?_, ?_, ?_, ?_, ?_⟩ <;>
      · simp only [Postgres.read]
        rw [if_neg hne, hsplit]
        simp [readResult, readEngine, after_fetch, open_cursor, hc, hb]

theorem c2_read_progression_witness :
    (readResult (Postgres.read (scenarioEnv "col1" "w0" []) none ({ tables := [] } : Engine)) =
      .ok none) ∧
    (readResult (Postgres.read (scenarioEnv "col1" "w1" []) none ({ tables := ["public.t"] } : Engine)) =
      .ok (some []) ∧
    (readEngine (Postgres.read (scenarioEnv "col1" "w1" []) none ({ tables := ["public.t"] } : Engine))
      ({ tables := ["public.t"] } : Engine)).cursor = false ∧
    (readEngine (Postgres.read (scenarioEnv "col1" "w1" []) none ({ tables := ["public.t"] } : Engine))
      ({ tables := ["public.t"] } : Engine)).conn = false ∧
    (readEngine (Postgres.read (scenarioEnv "col1" "w1" []) none ({ tables := ["public.t"] } : Engine))
      ({ tables := ["public.t"] } : Engine)).index = ({ tables := ["public.t"] } : Engine).index + 1 ∧
    (readEngine (Postgres.read (scenarioEnv "col1" "w1" []) none ({ tables := ["public.t"] } : Engine))
      ({ tables := ["public.t"] } : Engine)).saved_state = none ∧
    (readEngine (Postgres.read (scenarioEnv "col1" "w1" []) none ({ tables := ["public.t"] } : Engine))
      ({ tables := ["public.t"] } : Engine)).current_keys = none) :=
  ⟨(c2_read_progression.2.2.1 (scenarioEnv "col1" "w0" []) none ({ tables := [] } : Engine)).mpr
      (by decide),
   c2_read_progression.2.2.2 (scenarioEnv "col1" "w1" []) none ({ tables := ["public.t"] } : Engine)
      "public".data "t".data (by decide) (by decide) rfl⟩

theorem reportsOf_nil : reportsOf [] = [] := rfl

theorem reportsOf_append (a b : List Event) :
    reportsOf (a ++ b) = reportsOf a ++ reportsOf b := by
  simp [reportsOf, List.filter_append]

theorem reportsOf_exec (q : String) (tr : List Event) :
    reportsOf (Event.exec q :: tr) = reportsOf tr := by
  simp [reportsOf, List.filter]

theorem reportsOf_connect (tr : List Event) :
    reportsOf (Event.connect :: tr) = reportsOf tr := by
  simp [reportsOf, List.filter]

theorem reportsOf_report (sid : String) (st : SavedState) (tr : List Event) :
    reportsOf (Event.report sid st :: tr) = Event.report sid st :: reportsOf tr := by
  simp [reportsOf, List.filter]

theorem reportsOf_open_cursor (env : ReadEnv) (schema table : String) (s : Engine) :
    reportsOf (open_cursor env schema table s).2 = [] := by
  unfold open_cursor
  simp [reportsOf_append, reportsOf_connect, reportsOf_exec, reportsOf_nil,
    apply_ite reportsOf, ite_self]

theorem trace_getLast (a b c : List Event) (e1 e2 r : Event) :
    (Event.connect :: (a ++ (b ++ (c ++ [e1, e2, r])))).getLast? = some r := by
  have h : Event.connect :: (a ++ (b ++ (c ++ [e1, e2, r]))) =
      (Event.connect :: (a ++ b ++ c ++ [e1, e2])) ++ [r] := by
    simp
  rw [h, List.getLast?_concat]

/-- The checkpoint a non-empty fetch must report: the current table index
together with the ordering-key column values taken from the last returned
row, in ordering-key order. -/
def expected_checkpoint (env : ReadEnv) (sc tb : List Char) (s : Engine) : SavedState :=
  { last_index := s.index,
    last_value := (keys_in_use env s).map (fun kd => (kd.attname,
      rowGet ((env.batch.map (addInternals (String.mk tb) (String.mk sc)
        env.stateId)).getLast?.getD []) kd.attname)) }

/-- C4: on every read call a checkpoint is reported if and only if the
fetched batch is non-empty; when reported it is reported exactly once, as
the last event before the batch is returned, and carries the current table
index together with the ordering-key column values taken from the last row
of the batch in ordering-key order; a zero-row fetch reports nothing. -/
theorem c4_checkpoint_iff :
    ∀ (env : ReadEnv) (bs : Option Nat) (s : Engine) (sc tb : List Char),
      s.index < s.tables.length →
      splitFirstList '.' (s.tables.getD s.index "").data = some (sc, tb) →
      (env.batch = [] → reportsOf (readTrace (Postgres.read env bs s)) = []) ∧
      (env.batch ≠ [] →
        reportsOf (readTrace (Postgres.read env bs s)) =
          [Event.report env.stateId (expected_checkpoint env sc tb s)] ∧
        (readTrace (Postgres.read env bs s)).getLast? =
          some (Event.report env.stateId (expected_checkpoint env sc tb s)) ∧
        (readEngine (Postgres.read env bs s) s).saved_state =
          some (expected_checkpoint env sc tb s)) := by
  intro env bs s sc tb hlt hsplit
  have hne := Nat.not_le.mpr hlt
  constructor
  · intro hb
    by_cases hc : s.cursor <;>
    · simp only [Postgres.read]
      rw [if_neg hne, hsplit]
      simp [readTrace, after_fetch, hc, hb, reportsOf_append, reportsOf_exec,
        reportsOf_nil, reportsOf_open_cursor]
  · intro hb
    have htagne : env.batch.map (addInternals (String.mk tb) (String.mk sc) env.stateId) ≠
        ([] : List Row) := by
      simpa using hb
    by_cases hc : s.cursor <;>
      refine ⟨?_, ?_, ?_⟩ <;>
      · simp only [Postgres.read]
        rw [if_neg hne, hsplit]
        simp [readTrace, readEngine, after_fetch, hc, htagne, reportsOf_append,
          reportsOf_connect, reportsOf_exec, reportsOf_nil, reportsOf_report,
          reportsOf_open_cursor, expected_checkpoint, keys_in_use, open_cursor,
          List.getLast?_concat, trace_getLast, List.getLast?_cons_cons,
          List.getLast?_singleton, List.map_map, Function.comp_def,
          apply_ite reportsOf, ite_self]

theorem c4_checkpoint_iff_witness :
    (reportsOf (readTrace (Postgres.read (scenarioEnv "col1" "w3" []) none
      ({ tables := ["public.t"] } : Engine))) = []) ∧
    (reportsOf (readTrace (Postgres.read (scenarioEnv "col1" "w4" mockRecs) none
        ({ tables := ["public.t"] } : Engine))) =
      [Event.report (scenarioEnv "col1" "w4" mockRecs).stateId
        (expected_checkpoint (scenarioEnv "col1" "w4" mockRecs) "public".data "t".data
          ({ tables := ["public.t"] } : Engine))] ∧
    (readTrace (Postgres.read (scenarioEnv "col1" "w4" mockRecs) none
        ({ tables := ["public.t"] } : Engine))).getLast? =
      some (Event.report (scenarioEnv "col1" "w4" mockRecs).stateId
        (expected_checkpoint (scenarioEnv "col1" "w4" mockRecs) "public".data "t".data
          ({ tables := ["public.t"] } : Engine))) ∧
    (readEngine (Postgres.read (scenarioEnv "col1" "w4" mockRecs) none
        ({ tables := ["public.t"] } : Engine)) ({ tables := ["public.t"] } : Engine)).saved_state =
      some (expected_checkpoint (scenarioEnv "col1" "w4" mockRecs) "public".data "t".data
        ({ tables := ["public.t"] } : Engine))) :=
  ⟨(c4_checkpoint_iff (scenarioEnv "col1" "w3" []) none ({ tables := ["public.t"] } : Engine)
      "public".data "t".data (by decide) (by decide)).1 rfl,
   (c4_checkpoint_iff (scenarioEnv "col1" "w4" mockRecs) none ({ tables := ["public.t"] } : Engine)
      "public".data "t".data (by decide) (by decide)).2 (by decide)⟩

theorem resultRows_read (env : ReadEnv) (bs : Option Nat) (s : Engine) (sc tb : List Char)
    (hlt : s.index < s.tables.length)
    (hsplit : splitFirstList '.' (s.tables.getD s.index "").data = some (sc, tb)) :
    resultRows (Postgres.read env bs s) =
      env.batch.map (addInternals (String.mk tb) (String.mk sc) env.stateId) := by
  simp only [Postgres.read]
  rw [if_neg (Nat.not_le.mpr hlt), hsplit]
  rfl

/-- C8: every row returned by a read call carries the three added keys:
`__tablename` set to the table's bare name, `__schemaname` set to the
schema name, and `__state` set to the identifier generated for this fetch;
within one batch every row carries the same `__state` value. -/
theorem c8_row_tags :
    ∀ (env : ReadEnv) (bs : Option Nat) (s : Engine) (sc tb : List Char),
      s.index < s.tables.length →
      splitFirstList '.' (s.tables.getD s.index "").data = some (sc, tb) →
      (∀ r ∈ resultRows (Postgres.read env bs s),
        rowGet r "__tablename" = some (String.mk tb) ∧
        rowGet r "__schemaname" = some (String.mk sc) ∧
        rowGet r "__state" = some env.stateId) ∧
      (∀ r1 ∈ resultRows (Postgres.read env bs s),
        ∀ r2 ∈ resultRows (Postgres.read env bs s),
          rowGet r1 "__state" = rowGet r2 "__state") := by
  intro env bs s sc tb hlt hsplit
  have hres := resultRows_read env bs s sc tb hlt hsplit
  constructor
  · intro r hr
    rw [hres] at hr
    obtain ⟨orig, -, rfl⟩ := List.mem_map.mp hr
    exact ⟨addInternals_table _ _ _ _, addInternals_schema _ _ _ _, addInternals_state _ _ _ _⟩
  · intro r1 h1 r2 h2
    rw [hres] at h1 h2
    obtain ⟨o1, -, rfl⟩ := List.mem_map.mp h1
    obtain ⟨o2, -, rfl⟩ := List.mem_map.mp h2
    rw [addInternals_state, addInternals_state]

theorem c8_row_tags_witness :
    rowGet (addInternals "t" "public" "w5" [("id", "1"), ("col1", "foo1")]) "__tablename" =
      some "t" ∧
    rowGet (addInternals "t" "public" "w5" [("id", "1"), ("col1", "foo1")]) "__schemaname" =
      some "public" ∧
    rowGet (addInternals "t" "public" "w5" [("id", "1"), ("col1", "foo1")]) "__state" =
      some "w5" :=
  (c8_row_tags (scenarioEnv "col1" "w5" mockRecs) none ({ tables := ["public.t"] } : Engine)
      "public".data "t".data (by decide) (by decide)).1
    (addInternals "t" "public" "w5" [("id", "1"), ("col1", "foo1")]) (by decide)

/-- C10: the returned batch is exactly the fetched rows with the three tag
keys applied, and the tags unconditionally overwrite colliding keys: for
every row, whatever values it already holds under `__tablename`,
`__schemaname` or `__state`, the lookup after tagging returns the
engine-generated tag. -/
theorem c10_tag_overwrite :
    (∀ (env : ReadEnv) (bs : Option Nat) (s : Engine) (sc tb : List Char),
      s.index < s.tables.length →
      splitFirstList '.' (s.tables.getD s.index "").data = some (sc, tb) →
      resultRows (Postgres.read env bs s) =
        env.batch.map (addInternals (String.mk tb) (String.mk sc) env.stateId)) ∧
    (∀ (t sch id : String) (r : Row),
      rowGet (addInternals t sch id r) "__tablename" = some t ∧
      rowGet (addInternals t sch id r) "__schemaname" = some sch ∧
      rowGet (addInternals t sch id r) "__state" = some id) :=
  ⟨resultRows_read,
   fun t sch id r =>
    ⟨addInternals_table t sch id r, addInternals_schema t sch id r, addInternals_state t sch id r⟩⟩

theorem c10_tag_overwrite_witness :
    resultRows (Postgres.read (scenarioEnv "col1" "w6"
        [[("__state", "old"), ("__tablename", "shadow"), ("id", "7")]]) none
        ({ tables := ["public.t"] } : Engine)) =
      [[("__state", "w6"), ("__tablename", "t"), ("id", "7"), ("__schemaname", "public")]] ∧
    rowGet (addInternals "t" "public" "w6"
      [("__state", "old"), ("__tablename", "shadow"), ("id", "7")]) "__state" = some "w6" := by
  constructor
  · rw [c10_tag_overwrite.1 (scenarioEnv "col1" "w6"
      [[("__state", "old"), ("__tablename", "shadow"), ("id", "7")]]) none
      ({ tables := ["public.t"] } : Engine) "public".data "t".data (by decide) (by decide)]
    decide
  · exact (c10_tag_overwrite.2 "t" "public" "w6"
      [("__state", "old"), ("__tablename", "shadow"), ("id", "7")]).2.2

theorem get_query_resume_parts (schema table inckey incval : String) (keys : List KeyDesc)
    (mv : Option String) (st : SavedVals) (h : st ≠ []) :
    get_query schema table inckey incval keys mv (some st) =
      "SELECT * FROM \"" ++ schema ++ "\".\"" ++ table ++ "\"" ++
        (" WHERE " ++ inc_where inckey incval mv (spec_resume_pred st)) ++
        order_by_clause inckey keys ∧
    leadsWith (spec_resume_pred st).data
      (inc_where inckey incval mv (spec_resume_pred st)).data = true := by
  constructor
  · rw [get_query_eq, resume_where_spec st h,
      if_pos (inc_where_ne_empty inckey incval mv _ (spec_resume_pred_ne_empty st))]
  · unfold inc_where
    by_cases hg : inckey ≠ "" ∧ incval ≠ "" ∧ ¬ pyIn inckey (spec_resume_pred st)
    · rw [if_pos hg, if_pos (spec_resume_pred_ne_empty st), str_data_append, str_data_append,
        List.append_assoc]
      exact leadsWith_append _ _
    · rw [if_neg hg]
      exact leadsWith_refl _

/-- C3: a database error during a statement execution unsets the
connection and cursor handles and resets the rows-loaded counter before
the error propagates; and a read call on a table with no open cursor and a
saved checkpoint opens a fresh connection and declares a cursor whose
query is built from the checkpoint's ordering-key values, its WHERE clause
beginning with the resume predicate over those values rather than
rescanning the table from the beginning. -/
theorem c3_error_recovery :
    (∀ s : Engine,
      Postgres.execute s false = .error (Postgres.reset s) ∧
      (Postgres.reset s).conn = false ∧
      (Postgres.reset s).cursor = false ∧
      (Postgres.reset s).loaded = 0) ∧
    (∀ (env : ReadEnv) (bs : Option Nat) (s : Engine) (sc tb : List Char) (st : SavedState),
      s.cursor = false → s.saved_state = some st →
      s.index < s.tables.length →
      splitFirstList '.' (s.tables.getD s.index "").data = some (sc, tb) →
      Event.connect ∈ readTrace (Postgres.read env bs s) ∧
      Event.exec ("DECLARE cur CURSOR FOR " ++
        get_query (String.mk sc) (String.mk tb) s.inckey s.incval (resolve_keys env s)
          (resolved_max env s) (some st.last_value)) ∈ readTrace (Postgres.read env bs s) ∧
      (st.last_value ≠ [] →
        get_query (String.mk sc) (String.mk tb) s.inckey s.incval (resolve_keys env s)
            (resolved_max env s) (some st.last_value) =
          "SELECT * FROM \"" ++ String.mk sc ++ "\".\"" ++ String.mk tb ++ "\"" ++
            (" WHERE " ++ inc_where s.inckey s.incval (resolved_max env s)
              (spec_resume_pred st.last_value)) ++
            order_by_clause s.inckey (resolve_keys env s) ∧
        leadsWith (spec_resume_pred st.last_value).data
          (inc_where s.inckey s.incval (resolved_max env s)
            (spec_resume_pred st.last_value)).data = true)) := by
  constructor
  · intro s
    exact ⟨rfl, rfl, rfl, rfl⟩
  · intro env bs s sc tb st hc hsaved hlt hsplit
    have hne := Nat.not_le.mpr hlt
    refine ⟨?_, ?_, fun hlv => get_query_resume_parts _ _ _ _ _ _ _ hlv⟩
    · simp only [Postgres.read]
      rw [if_neg hne, hsplit]
      simp [readTrace, hc, open_cursor]
    · simp only [Postgres.read]
      rw [if_neg hne, hsplit]
      simp [readTrace, hc, open_cursor, declared_query, hsaved]

/-- The engine state after a mid-table error: no cursor, but the
checkpoint of the previous batch still saved. -/
def recoveryEngine : Engine :=
  { tables := ["public.t"],
    saved_state := some { last_index := 0, last_value := [("col1", some "foo3")] } }

theorem c3_error_recovery_witness :
    (Postgres.execute recoveryEngine false = .error (Postgres.reset recoveryEngine)) ∧
    Event.connect ∈ readTrace (Postgres.read (scenarioEnv "col1" "w7" mockRecs) none
      recoveryEngine) ∧
    Event.exec ("DECLARE cur CURSOR FOR " ++
      get_query "public" "t" "" ""
        (resolve_keys (scenarioEnv "col1" "w7" mockRecs) recoveryEngine)
        (resolved_max (scenarioEnv "col1" "w7" mockRecs) recoveryEngine)
        (some [("col1", some "foo3")])) ∈
      readTrace (Postgres.read (scenarioEnv "col1" "w7" mockRecs) none recoveryEngine) ∧
    get_query "public" "t" "" ""
        (resolve_keys (scenarioEnv "col1" "w7" mockRecs) recoveryEngine)
        (resolved_max (scenarioEnv "col1" "w7" mockRecs) recoveryEngine)
        (some [("col1", some "foo3")]) =
      "SELECT * FROM \"" ++ "public" ++ "\".\"" ++ "t" ++ "\"" ++
        (" WHERE " ++ inc_where "" "" (resolved_max (scenarioEnv "col1" "w7" mockRecs)
          recoveryEngine) (spec_resume_pred [("col1", some "foo3")])) ++
        order_by_clause "" (resolve_keys (scenarioEnv "col1" "w7" mockRecs) recoveryEngine) :=
  ⟨(c3_error_recovery.1 recoveryEngine).1,
   (c3_error_recovery.2 (scenarioEnv "col1" "w7" mockRecs) none recoveryEngine
      "public".data "t".data
      { last_index := 0, last_value := [("col1", some "foo3")] }
      rfl rfl (by decide) (by decide)).1,
   (c3_error_recovery.2 (scenarioEnv "col1" "w7" mockRecs) none recoveryEngine
      "public".data "t".data
      { last_index := 0, last_value := [("col1", some "foo3")] }
      rfl rfl (by decide) (by decide)).2.1,
   ((c3_error_recovery.2 (scenarioEnv "col1" "w7" mockRecs) none recoveryEngine
      "public".data "t".data
      { last_index := 0, last_value := [("col1", some "foo3")] }
      rfl rfl (by decide) (by decide)).2.2 (by decide)).1⟩

/-- A database where key introspection and the column fallback both return
nothing, while the table itself yields one row. -/
def noKeysEnv (sid : String) : ReadEnv :=
  { keysMeta := [], colsMeta := [], batch := [[("id", "1")]], stateId := sid }

/-- The engine of the no-keys scenario. -/
def noKeysEngine : Engine :=
  { tables := ["my_schema.foo_bar"] }

/-- C7 counterexample: with no key candidates and no columns (empty
ordering key), `read` does not raise a configuration error: it proceeds to
declare a bare `SELECT` cursor and returns the fetched rows. -/
theorem c7_counterexample :
    readResult (Postgres.read (noKeysEnv "sid-1") none noKeysEngine) =
      .ok (some [[("id", "1"), ("__tablename", "foo_bar"), ("__schemaname", "my_schema"),
        ("__state", "sid-1")]]) ∧
    Event.exec "DECLARE cur CURSOR FOR SELECT * FROM \"my_schema\".\"foo_bar\"" ∈
      readTrace (Postgres.read (noKeysEnv "sid-1") none noKeysEngine) := by
  decide

/-- C7 (amended): if key introspection yields no candidates and the
column-list fallback also yields no columns, the resolved ordering key is
empty and the engine proceeds to scan anyway: the read succeeds, returning
the tagged batch, and the declared query is `get_query` applied to the
empty key list (no ORDER BY), instead of any fatal configuration error. -/
theorem c7_empty_key_amended :
    ∀ (env : ReadEnv) (bs : Option Nat) (s : Engine) (sc tb : List Char),
      s.index < s.tables.length →
      splitFirstList '.' (s.tables.getD s.index "").data = some (sc, tb) →
      s.cursor = false →
      s.current_keys.getD [] = [] → env.keysMeta = [] → env.colsMeta = [] →
      resolve_keys env s = [] ∧
      readResult (Postgres.read env bs s) =
        .ok (some (env.batch.map (addInternals (String.mk tb) (String.mk sc) env.stateId))) ∧
      Event.exec ("DECLARE cur CURSOR FOR " ++
        get_query (String.mk sc) (String.mk tb) s.inckey s.incval [] (resolved_max env s)
          (s.saved_state.map (·.last_value))) ∈ readTrace (Postgres.read env bs s) := by
  intro env bs s sc tb hlt hsplit hc hck hkm hcm
  have hne := Nat.not_le.mpr hlt
  have hks : key_strategy [] = [] := by decide
  have hrk : resolve_keys env s = [] := by
    simp [resolve_keys, hck, hkm, hcm, hks]
  refine ⟨hrk, ?_, ?_⟩
  · simp only [Postgres.read]
    rw [if_neg hne, hsplit]
    rfl
  · simp only [Postgres.read]
    rw [if_neg hne, hsplit]
    simp [readTrace, hc, open_cursor, declared_query, hrk]

theorem c7_empty_key_amended_witness :
    resolve_keys (noKeysEnv "sid-2") noKeysEngine = [] ∧
    readResult (Postgres.read (noKeysEnv "sid-2") none noKeysEngine) =
      .ok (some ((noKeysEnv "sid-2").batch.map (addInternals (String.mk "foo_bar".data)
        (String.mk "my_schema".data) (noKeysEnv "sid-2").stateId))) ∧
    Event.exec ("DECLARE cur CURSOR FOR " ++
      get_query (String.mk "my_schema".data) (String.mk "foo_bar".data)
        noKeysEngine.inckey noKeysEngine.incval []
        (resolved_max (noKeysEnv "sid-2") noKeysEngine)
        (noKeysEngine.saved_state.map (·.last_value))) ∈
      readTrace (Postgres.read (noKeysEnv "sid-2") none noKeysEngine) :=
  c7_empty_key_amended (noKeysEnv "sid-2") none noKeysEngine "my_schema".data "foo_bar".data
    (by decide) (by decide) rfl rfl rfl rfl

theorem rsplitList_eq_none (c : Char) (l : List Char) (h : c ∉ l) :
    rsplitList c l = none := by
  induction l with
  | nil => rfl
  | cons x xs ih =>
    have hx : ¬ x = c := fun he => h (he ▸ List.mem_cons_self x xs)
    have hxs : c ∉ xs := fun hm => h (List.mem_cons_of_mem x hm)
    simp [rsplitList, ih hxs, hx]

theorem rsplitList_last (c : Char) (l r : List Char) (h : c ∉ r) :
    rsplitList c (l ++ c :: r) = some (l, r) := by
  induction l with
  | nil => simp [rsplitList, rsplitList_eq_none c r h]
  | cons x xs ih => simp [rsplitList, ih]

theorem str_mk_data (s : String) : String.mk s.data = s := by
  cases s; rfl

theorem rsplit1_sep (pre post sepStr : String) (c : Char) (hs : sepStr.data = [c])
    (h : c ∉ post.data) : rsplit1 (pre ++ sepStr ++ post) c = some (pre, post) := by
  unfold rsplit1
  have hd : (pre ++ sepStr ++ post).data = pre.data ++ c :: post.data := by
    rw [str_data_append, str_data_append, hs, List.append_assoc]
    rfl
  rw [hd, rsplitList_last c _ _ h]
  simp [str_mk_data]

theorem contains_of_mem (l : List Char) (c : Char) (h : c ∈ l) :
    l.contains c = true := by
  induction l with
  | nil => cases h
  | cons x xs ih =>
    by_cases hx : c = x
    · subst hx
      simp [List.contains, List.elem]
    · rcases List.mem_cons.mp h with h1 | h2
      · exact absurd h1 hx
      · have hbeq : (c == x) = false := by
          simp [hx]
        simp [List.contains, List.elem, hbeq, h2]

/-- C9: `connect` parses the address as `host[:port]/database`, splitting
the database name at the last slash and the port at the last colon of the
host part, defaulting the port to 5432 when the host part has no colon;
an operational error whose message mentions `authentication failed` is
turned into a non-retryable classified error, and any other operational
error is propagated unchanged. -/
theorem c9_connect_parsing :
    (∀ host db : String, '/' ∉ db.data →
      rsplit1 (host ++ "/" ++ db) '/' = some (host, db)) ∧
    (∀ host db : String, '/' ∉ db.data → host.data.contains ':' = false →
      parse_addr (host ++ "/" ++ db) = some (host, 5432, db)) ∧
    (∀ (h p db : String) (n : Nat), '/' ∉ db.data → ':' ∉ p.data →
      pyInt? p = some n →
      parse_addr (h ++ ":" ++ p ++ "/" ++ db) = some (h, n, db)) ∧
    (∀ user msg : String, pyIn "authentication failed" msg = true →
      classify_connect_error user msg =
        .panoply ("Login failed for user: " ++ user) false) ∧
    (∀ user msg : String, pyIn "authentication failed" msg = false →
      classify_connect_error user msg = .operational msg) := by
  refine ⟨?_, ?_, ?_, ?_, ?_⟩
  · intro host db h1
    exact rsplit1_sep host db "/" '/' rfl h1
  · intro host db h1 h2
    unfold parse_addr
    rw [rsplit1_sep host db "/" '/' rfl h1]
    simp [h2]
    intro hm
    have hct := contains_of_mem _ _ hm
    rw [h2] at hct
    cases hct
  · intro h p db n hdb hp hnat
    unfold parse_addr
    rw [rsplit1_sep (h ++ ":" ++ p) db "/" '/' rfl hdb]
    have hcont : (h ++ ":" ++ p).data.contains ':' = true := by
      apply contains_of_mem
      rw [str_data_append, str_data_append]
      have hcolon : (":" : String).data = [':'] := rfl
      rw [hcolon]
      simp
    simp [hcont, rsplit1_sep h p ":" ':' rfl hp, hnat]
  · intro user msg h
    simp [classify_connect_error, h]
  · intro user msg h
    simp [classify_connect_error, h]

theorem c9_connect_parsing_witness :
    parse_addr ("test.database.name" ++ "/" ++ "foobar") =
      some ("test.database.name", 5432, "foobar") ∧
    parse_addr ("test.database.name" ++ ":" ++ "5439" ++ "/" ++ "foobar") =
      some ("test.database.name", 5439, "foobar") ∧
    classify_connect_error "test" "FATAL: password authentication failed for user" =
      .panoply ("Login failed for user: " ++ "test") false ∧
    classify_connect_error "test" "something unexpected" =
      .operational "something unexpected" :=
  ⟨c9_connect_parsing.2.1 "test.database.name" "foobar" (by decide) (by decide),
   c9_connect_parsing.2.2.1 "test.database.name" "5439" "foobar" 5439
     (by decide) (by decide) (by decide),
   c9_connect_parsing.2.2.2.1 "test" "FATAL: password authentication failed for user"
     (by decide),
   c9_connect_parsing.2.2.2.2 "test" "something unexpected" (by decide)⟩
